import Mathlib

/-!
Verification of the mock business system (CRM / ERP / email services plus
the transaction test harness) against its specification.

Shallow embedding conventions:
* monetary amounts (Python floats) are modelled as exact rationals `ℚ`;
* wall-clock timestamps (`datetime.now()`) are passed in as explicit `String`
  parameters, or omitted from result records where they are display-only;
* server state (the module-level dictionaries and lists) is passed and
  returned explicitly;
* free-text strings that interpolate numbers are kept where they carry
  logical content (the validation `notes` list) and use `toString` for
  the interpolated count.
-/

namespace MockBiz

/-! ## CRM service (mock_crm.py) -/

/-- A customer record, as stored in the `customers` dictionary of the CRM
service.  Display-only fields (`phone`, `created_date`) are omitted. -/
structure Customer where
  id : String
  name : String
  email : String
  account_number : String
  status : String
  credit_limit : ℚ
  current_balance : ℚ
  last_payment_date : Option String
  last_payment_amount : ℚ
deriving Repr, DecidableEq

/-- Result body of `GET /api/customers/<id>/credit-check`. -/
structure CreditCheckResult where
  customer_id : String
  credit_limit : ℚ
  current_balance : ℚ
  available_credit : ℚ
  requested_amount : ℚ
  approved : Bool
  status : String
deriving Repr, DecidableEq

/-- Embedding of `credit_check` from mock_crm.py, after the customer lookup succeeded. -/
def credit_check (c : Customer) (amount : ℚ) : CreditCheckResult :=
  let available_credit := c.credit_limit - c.current_balance
  { customer_id := c.id
    credit_limit := c.credit_limit
    current_balance := c.current_balance
    available_credit := available_credit
    requested_amount := amount
    approved := decide (amount ≤ available_credit ∧ c.status = "active")
    status := c.status }

/-- A CRM ledger transaction record, as appended to the `transactions`
list.  The uuid, bank id, timestamp and processed_by fields are display-only
and omitted. -/
structure TransactionRec where
  customer_id : String
  amount : ℚ
  txn_type : String
  reference : String
  old_balance : ℚ
  new_balance : ℚ
deriving Repr, DecidableEq

/-- Response of `update_balance`: either the HTTP-400 credit-limit
rejection, or the success body (which carries the appended transaction
and the reported `balance_change`). -/
inductive UpdateResponse where
  | creditError (available_credit attempted_balance : ℚ)
  | success (txn : TransactionRec) (balance_change : ℚ)
deriving Repr, DecidableEq

/-- Full effect of one `update_balance` call: the customer record as
stored after the call, the transaction records appended to the log, and
the HTTP response. -/
structure UpdateOutcome where
  stored : Customer
  appended : List TransactionRec
  response : UpdateResponse
deriving Repr, DecidableEq

/-- Python's built-in `abs` on a rational, written so that it evaluates
by kernel reduction. -/
def pyAbs (x : ℚ) : ℚ := if x < 0 then -x else x

/-- Embedding of `update_balance` from mock_crm.py, after the customer lookup
succeeded.  The Python code mutates `customers[customer_id]` in place
before the credit-limit check, so on the rejection path the mutated
record is what remains stored; this embedding reproduces that by
returning the mutated record in `stored` on both paths. -/
def update_balance (c : Customer) (amount : ℚ) (transaction_type : String)
    (reference now : String) : UpdateOutcome :=
  let old_balance := c.current_balance
  let c1 :=
    if transaction_type = "payment" then
      { c with current_balance := c.current_balance - amount
               last_payment_date := some now
               last_payment_amount := amount }
    else if transaction_type = "charge" then
      { c with current_balance := c.current_balance + amount }
    else if transaction_type = "adjustment" then
      { c with current_balance := c.current_balance + amount }
    else c
  if c1.current_balance < 0 ∧ pyAbs c1.current_balance > c1.credit_limit then
    { stored := c1
      appended := []
      response := .creditError c1.credit_limit c1.current_balance }
  else
    let txn : TransactionRec :=
      { customer_id := c.id
        amount := amount
        txn_type := transaction_type
        reference := reference
        old_balance := old_balance
        new_balance := c1.current_balance }
    { stored := c1
      appended := [txn]
      response := .success txn (if transaction_type = "charge" then amount else -amount) }

/-! ## ERP service (mock_erp.py) -/

/-- An invoice record, as stored in the `invoices` dictionary of the ERP
service.  Display-only fields (issue_date, description, payment_terms,
line_items) are omitted. -/
structure Invoice where
  id : String
  customer_account : String
  amount : ℚ
  status : String
  due_date : String
  paid_amount : ℚ
  last_payment_date : Option String
  last_payment_amount : ℚ
  paid_date : Option String
deriving Repr, DecidableEq

/-- A payment record, as appended to the `payments` list.  The uuid,
bank id, timestamp, fixed `"completed"` status and `"system"`
processed_by fields are omitted. -/
structure Payment where
  invoice_id : String
  customer_account : String
  amount : ℚ
  method : String
  reference : String
  outstanding_before : ℚ
  outstanding_after : ℚ
deriving Repr, DecidableEq

/-- Embedding of `sum(p['amount'] for p in payments if p['invoice_id'] == invoice_id)`
from process_payment. -/
def paid_sum (payments : List Payment) (invoice_id : String) : ℚ :=
  ((payments.filter (fun p => p.invoice_id == invoice_id)).map Payment.amount).sum

/-- Response of `process_payment`: the HTTP-400 overpayment rejection
(whose body carries the outstanding amount, the attempted payment and
the overpayment delta), or the success body with the remaining
balance. -/
inductive PaymentResponse where
  | overpay (outstanding_amount payment_amount overpayment : ℚ)
  | success (remaining_balance : ℚ)
deriving Repr, DecidableEq

/-- Full effect of one `process_payment` call: the invoice record as
stored after the call, the payments list after the call, and the HTTP
response. -/
structure PaymentOutcome where
  invoice : Invoice
  payments : List Payment
  response : PaymentResponse
deriving Repr, DecidableEq

/-- Embedding of `process_payment` from mock_erp.py, after the invoice lookup for
`invoice_id` succeeded with record `inv`. -/
def process_payment (invoice_id : String) (inv : Invoice) (payments : List Payment)
    (payment_amount : ℚ) (payment_method reference now : String) : PaymentOutcome :=
  let paid_amount := paid_sum payments invoice_id
  let outstanding_amount := inv.amount - paid_amount
  if payment_amount > outstanding_amount then
    { invoice := inv
      payments := payments
      response := .overpay outstanding_amount payment_amount
        (payment_amount - outstanding_amount) }
  else
    let payment : Payment :=
      { invoice_id := invoice_id
        customer_account := inv.customer_account
        amount := payment_amount
        method := payment_method
        reference := reference
        outstanding_before := outstanding_amount
        outstanding_after := outstanding_amount - payment_amount }
    let new_outstanding := outstanding_amount - payment_amount
    let inv1 :=
      if new_outstanding ≤ 1/100 then
        { inv with status := "paid"
                   paid_date := some now
                   paid_amount := inv.amount
                   last_payment_date := some now
                   last_payment_amount := payment_amount }
      else
        { inv with status := "partially_paid"
                   paid_amount := inv.amount - new_outstanding
                   last_payment_date := some now
                   last_payment_amount := payment_amount }
    { invoice := inv1
      payments := payments ++ [payment]
      response := .success new_outstanding }

/-- A purchase-order record (read-only in this system). -/
structure PurchaseOrder where
  id : String
  supplier : String
  amount : ℚ
  status : String
deriving Repr, DecidableEq

/-- The mutable state of the ERP service: the `invoices` dictionary (as
an association-free list of records), the `payments` list and the
`purchase_orders` dictionary. -/
structure ErpState where
  invoices : List Invoice
  payments : List Payment
  purchase_orders : List PurchaseOrder
deriving Repr, DecidableEq

/-- Result body of `validate_transaction`.  The timestamp field is
display-only and omitted. -/
structure ValidationResult where
  account_number : String
  transaction_amount : ℚ
  transaction_type : String
  outstanding_invoices : ℚ
  invoice_count : Nat
  validation_status : String
  notes : List String
deriving Repr, DecidableEq

/-- Embedding of `validate_transaction` from mock_erp.py.  The Python handler reads a
falsy account number (absent or `""`) as the 400 error; state is
returned explicitly to record that the handler never writes it. -/
def validate_transaction (s : ErpState) (account_number : String)
    (transaction_amount : ℚ) (transaction_type : String) :
    ErpState × Except String ValidationResult :=
  if account_number = "" then (s, .error "Account number required")
  else
    let customer_invoices := s.invoices.filter
      (fun i => i.customer_account == account_number)
    let outstanding_amount :=
      ((customer_invoices.filter
          (fun i => i.status == "pending" || i.status == "overdue")).map
        Invoice.amount).sum
    let r0 : ValidationResult :=
      { account_number := account_number
        transaction_amount := transaction_amount
        transaction_type := transaction_type
        outstanding_invoices := outstanding_amount
        invoice_count := customer_invoices.length
        validation_status := "approved"
        notes := [] }
    let r1 :=
      if transaction_type = "payment" ∧ transaction_amount > outstanding_amount then
        { r0 with validation_status := "warning"
                  notes := r0.notes ++ ["Payment amount exceeds outstanding invoices"] }
      else r0
    let overdue_invoices := customer_invoices.filter (fun i => i.status == "overdue")
    let r2 :=
      if overdue_invoices.length > 0 then
        { r1 with validation_status := "attention_required"
                  notes := r1.notes ++
                    ["Customer has " ++ toString overdue_invoices.length ++ " overdue invoices"] }
      else r1
    let r3 :=
      if outstanding_amount > 50000 then
        { r2 with validation_status := "high_value"
                  notes := r2.notes ++ ["High value customer - manual review recommended"] }
      else r2
    (s, .ok r3)

/-- The figure `validate_transaction` actually uses as "outstanding":
the sum of the full amounts of the account's invoices whose status is
`"pending"` or `"overdue"`. -/
def pending_overdue_total (s : ErpState) (account_number : String) : ℚ :=
  (((s.invoices.filter (fun i => i.customer_account == account_number)).filter
      (fun i => i.status == "pending" || i.status == "overdue")).map
    Invoice.amount).sum

/-- The glossary's outstanding figure, written from the spec's words:
the sum over the account's invoices of (invoice amount minus the sum of
all prior payments recorded against that invoice). -/
def glossary_outstanding (s : ErpState) (account_number : String) : ℚ :=
  ((s.invoices.filter (fun i => i.customer_account == account_number)).map
    (fun i => i.amount - paid_sum s.payments i.id)).sum

/-- The final validation status as claim C5 words it: the last of the
three overwrites whose condition holds, with `high_value` taking
precedence over `attention_required` over `warning`, and `approved`
when none holds. -/
def validation_status_spec (s : ErpState) (account_number : String)
    (transaction_amount : ℚ) (transaction_type : String) : String :=
  let customer_invoices := s.invoices.filter
    (fun i => i.customer_account == account_number)
  let outstanding_amount :=
    ((customer_invoices.filter
        (fun i => i.status == "pending" || i.status == "overdue")).map
      Invoice.amount).sum
  if outstanding_amount > 50000 then "high_value"
  else if (customer_invoices.filter (fun i => i.status == "overdue")).length > 0 then
    "attention_required"
  else if transaction_type = "payment" ∧ transaction_amount > outstanding_amount then
    "warning"
  else "approved"

/-- Whether a `process_payment` response is the overpayment rejection. -/
def PaymentResponse.isOverpay : PaymentResponse → Bool
  | .overpay _ _ _ => true
  | .success _ => false

/-! ## Test harness (test_cases.py) -/

/-- The decision record built by `make_decision` in test_cases.py. -/
structure DecisionStep where
  action : String
  confidence : ℚ
  reasons : List String
  next_steps : List String
deriving Repr, DecidableEq

/-- Embedding of `make_decision` from test_cases.py.  A step that succeeded with data
is modelled as `some` of the data, a failed step as `none` (the Python
code reads `step["success"]` and then `step["data"]`). -/
def make_decision (amount : ℚ) (customer_step : Option Customer)
    (validation_step : Option ValidationResult) : DecisionStep :=
  match customer_step with
  | none =>
    { action := "manual_review", confidence := 0
      reasons := ["Customer not found in CRM"]
      next_steps := ["Research customer or return payment"] }
  | some customer =>
    if customer.status = "suspended" then
      { action := "hold", confidence := 9/10
        reasons := ["Customer account is suspended"]
        next_steps := ["Contact customer service team"] }
    else if amount ≤ 0 then
      { action := "error", confidence := 1
        reasons := ["Invalid transaction amount"]
        next_steps := ["Reject transaction"] }
    else if amount > 50000 then
      { action := "manual_review", confidence := 3/10
        reasons := ["High value payment requires manual approval"]
        next_steps := ["Manager approval required"] }
    else
      match validation_step with
      | some validation =>
        if validation.validation_status = "approved" then
          { action := "auto_process", confidence := 95/100
            reasons := ["All validations passed"]
            next_steps := ["Process payment automatically"] }
        else if validation.validation_status = "warning" then
          { action := "review_and_process", confidence := 7/10
            reasons := validation.notes
            next_steps := ["Review payment amount vs outstanding invoices"] }
        else
          { action := "manual_review", confidence := 3/10
            reasons := validation.notes
            next_steps := ["Manual review required"] }
      | none =>
        { action := "manual_review", confidence := 2/10
          reasons := ["Unable to validate transaction"]
          next_steps := ["Manual validation required"] }

/-- The decision outcome as claim C1 words it: first-match-wins over
the fixed order of checks. -/
def decision_table_spec (amount : ℚ) (customer_step : Option Customer)
    (validation_step : Option ValidationResult) : String :=
  match customer_step with
  | none => "manual_review"
  | some customer =>
    if customer.status = "suspended" then "hold"
    else if amount ≤ 0 then "error"
    else if amount > 50000 then "manual_review"
    else
      match validation_step with
      | some validation =>
        if validation.validation_status = "approved" then "auto_process"
        else if validation.validation_status = "warning" then "review_and_process"
        else "manual_review"
      | none => "manual_review"

/-! ## Email notification service (mock_email.py) -/

/-- One entry of the `notifications_to_send` list built by
`evaluate_notification`.  The free-text `reason` field interpolates a
float and is display-only, so it is omitted. -/
structure NotificationItem where
  template : String
  priority : String
deriving Repr, DecidableEq

/-- Response body of `evaluate_notification` (the evaluation timestamp
is display-only and omitted). -/
structure NotificationEvalResult where
  should_notify : Bool
  notifications : List NotificationItem
deriving Repr, DecidableEq

/-- Embedding of `evaluate_notification` from mock_email.py.  A missing or empty
(falsy) `customer` and `validation_result` are modelled as `none`; the
transaction contributes only its `amount` to the logic. -/
def evaluate_notification (amount : ℚ) (customer : Option Customer)
    (validation_result : Option ValidationResult) : NotificationEvalResult :=
  let customer_status :=
    match customer with
    | some c => c.status
    | none => "unknown"
  let n1 : List NotificationItem :=
    if amount > 50000 then
      [{ template := "high_value_alert", priority := "high" }]
    else []
  let n2 := n1 ++
    (if customer_status = "suspended" then
      [{ template := "suspended_customer_payment", priority := "high" }]
    else [])
  let n3 := n2 ++
    (match customer with
    | none => [{ template := "unknown_customer", priority := "urgent" }]
    | some _ => [])
  let n4 := n3 ++
    (match validation_result with
    | some v =>
      if v.validation_status = "warning" ∨ v.validation_status = "attention_required" then
        [{ template := "payment_mismatch", priority := "normal" }]
      else []
    | none => [])
  let n5 := n4 ++
    (match validation_result with
    | some v =>
      if "overpayment" ∈ v.notes then
        [{ template := "overpayment_alert", priority := "normal" }]
      else []
    | none => [])
  { should_notify := decide (n5.length > 0), notifications := n5 }

/-! ## Concrete records used in witnesses and counterexamples -/

/-- A concrete customer used to exhibit the credit-floor violation of
`update_balance`: active, credit limit 50000, zero balance. -/
def floorBugCustomer : Customer :=
  { id := "cust_800", name := "F", email := "f@f", account_number := "ACC-800"
    status := "active", credit_limit := 50000, current_balance := 0
    last_payment_date := none, last_payment_amount := 0 }

/-- A concrete customer whose stored balance is already negative beyond
the credit limit. -/
def deepDebtCustomer : Customer :=
  { id := "cust_700", name := "D", email := "d@d", account_number := "ACC-700"
    status := "active", credit_limit := 50, current_balance := -100
    last_payment_date := none, last_payment_amount := 0 }

/-- A concrete pending invoice of amount 100 with no payments yet. -/
def sampleInvoice : Invoice :=
  { id := "INV-S", customer_account := "ACC-S", amount := 100, status := "pending"
    due_date := "2025-07-15", paid_amount := 0, last_payment_date := none
    last_payment_amount := 0, paid_date := none }

/-- A concrete invoice that has received a partial payment of 40 out of
100 and is therefore stored with status `"partially_paid"`. -/
def partInvoice : Invoice :=
  { id := "INV-P", customer_account := "ACC-P", amount := 100
    status := "partially_paid", due_date := "2025-01-01", paid_amount := 40
    last_payment_date := some "t", last_payment_amount := 40, paid_date := none }

/-- The payment record behind `partInvoice`. -/
def partPayment : Payment :=
  { invoice_id := "INV-P", customer_account := "ACC-P", amount := 40
    method := "bank_transfer", reference := "", outstanding_before := 100
    outstanding_after := 60 }

/-- ERP state holding `partInvoice` and its partial payment. -/
def partState : ErpState :=
  { invoices := [partInvoice], payments := [partPayment], purchase_orders := [] }

end MockBiz

namespace MockBiz

/-- Claim C7: for every existing customer and requested amount,
`credit_check` approves exactly when the amount is at most
`credit_limit - current_balance` and the status is `"active"`; in
particular a non-active customer is never approved. -/
theorem credit_check_approved_iff (c : Customer) (amount : ℚ) :
    ((credit_check c amount).approved = true ↔
      (amount ≤ c.credit_limit - c.current_balance ∧ c.status = "active")) ∧
    (c.status ≠ "active" → (credit_check c amount).approved = false) := by
  constructor
  · simp [credit_check]
  · intro h
    simp [credit_check, h]

/-- Witness for `credit_check_approved_iff` at a concrete customer. -/
theorem credit_check_approved_iff_witness :
    (credit_check
      { id := "cust_900", name := "W", email := "w@w", account_number := "ACC-900"
        status := "suspended", credit_limit := 100, current_balance := 0
        last_payment_date := none, last_payment_amount := 0 } 10).approved = false := by
  exact (credit_check_approved_iff _ 10).2 (by decide)

/-- Claim C2 (code bug): a `payment` update of 60000 against
`floorBugCustomer` returns the credit-limit rejection, yet the stored
balance after the call is -60000, strictly below `-credit_limit`:
the Python code subtracts from the stored balance before the
credit-limit check and does not roll back on rejection. -/
theorem update_balance_payment_breaks_credit_floor :
    (update_balance floorBugCustomer 60000 "payment" "" "t").response =
      UpdateResponse.creditError 50000 (-60000) ∧
    (update_balance floorBugCustomer 60000 "payment" "" "t").stored.current_balance <
      -floorBugCustomer.credit_limit := by
  constructor <;> simp [update_balance, pyAbs, floorBugCustomer] <;> norm_num

/-- Claim C10, counterexample: with the unrecognised type `"transfer"`,
`update_balance` on `deepDebtCustomer` returns the credit-limit
rejection and appends no transaction record, contrary to the claim that
such a call always returns success and appends a record. -/
theorem update_balance_unknown_type_counterexample :
    (update_balance deepDebtCustomer 5 "transfer" "" "t").response =
      UpdateResponse.creditError 50 (-100) ∧
    (update_balance deepDebtCustomer 5 "transfer" "" "t").appended = [] := by
  constructor <;> simp [update_balance, pyAbs, deepDebtCustomer] <;> norm_num

/-- Claim C10 (amended): for every existing customer whose stored
balance is not already negative with magnitude exceeding the credit
limit, an `update_balance` call whose type is none of `"payment"`,
`"charge"`, `"adjustment"` returns success, leaves the stored record
unchanged, and appends exactly one transaction record whose
`old_balance` equals its `new_balance`. -/
theorem update_balance_unknown_type_noop (c : Customer) (amount : ℚ)
    (transaction_type reference now : String)
    (hp : transaction_type ≠ "payment") (hc : transaction_type ≠ "charge")
    (ha : transaction_type ≠ "adjustment")
    (hbal : ¬ (c.current_balance < 0 ∧ pyAbs c.current_balance > c.credit_limit)) :
    update_balance c amount transaction_type reference now =
      { stored := c
        appended := [{ customer_id := c.id, amount := amount
                       txn_type := transaction_type, reference := reference
                       old_balance := c.current_balance
                       new_balance := c.current_balance }]
        response := .success
          { customer_id := c.id, amount := amount
            txn_type := transaction_type, reference := reference
            old_balance := c.current_balance, new_balance := c.current_balance }
          (-amount) } := by
  simp only [update_balance, if_neg hp, if_neg hc, if_neg ha, if_neg hbal, if_neg hc]

/-- Witness for `update_balance_unknown_type_noop` at a concrete
customer and type. -/
theorem update_balance_unknown_type_noop_witness :
    update_balance floorBugCustomer 5 "transfer" "r" "t" =
      { stored := floorBugCustomer
        appended := [{ customer_id := "cust_800", amount := 5
                       txn_type := "transfer", reference := "r"
                       old_balance := 0, new_balance := 0 }]
        response := .success
          { customer_id := "cust_800", amount := 5
            txn_type := "transfer", reference := "r"
            old_balance := 0, new_balance := 0 }
          (-5) } := by
  have h := update_balance_unknown_type_noop floorBugCustomer 5 "transfer" "r" "t"
    (by decide) (by decide) (by decide) (by norm_num [pyAbs, floorBugCustomer])
  simpa [floorBugCustomer] using h

/-- Appending a payment whose `invoice_id` matches adds its amount to
`paid_sum` for that invoice. -/
theorem paid_sum_append_matching (payments : List Payment) (p : Payment)
    (invoice_id : String) (hp : p.invoice_id = invoice_id) :
    paid_sum (payments ++ [p]) invoice_id = paid_sum payments invoice_id + p.amount := by
  unfold paid_sum
  rw [List.filter_append, List.map_append, List.sum_append]
  simp [List.filter_cons, hp]

/-- Claim C3: `process_payment` rejects exactly when the payment amount
strictly exceeds the outstanding amount (invoice amount minus the sum
of prior recorded payments); on rejection the error body carries the
overpayment delta and the stored invoice and payments list are
unchanged. -/
theorem process_payment_rejects_iff_overpay (invoice_id : String) (inv : Invoice)
    (payments : List Payment) (payment_amount : ℚ) (method reference now : String) :
    ((process_payment invoice_id inv payments payment_amount method reference now).response.isOverpay
        = true ↔
      payment_amount > inv.amount - paid_sum payments invoice_id) ∧
    (payment_amount > inv.amount - paid_sum payments invoice_id →
      process_payment invoice_id inv payments payment_amount method reference now =
        { invoice := inv
          payments := payments
          response := .overpay (inv.amount - paid_sum payments invoice_id) payment_amount
            (payment_amount - (inv.amount - paid_sum payments invoice_id)) }) := by
  constructor
  · by_cases h : payment_amount > inv.amount - paid_sum payments invoice_id
    · simp [process_payment, if_pos h, PaymentResponse.isOverpay, h]
    · simp only [process_payment, if_neg h]
      simp [PaymentResponse.isOverpay, h]
  · intro h
    simp [process_payment, if_pos h]

/-- Witness for `process_payment_rejects_iff_overpay`: a payment of 150
against `sampleInvoice` (outstanding 100) is rejected with delta 50. -/
theorem process_payment_rejects_iff_overpay_witness :
    process_payment "INV-S" sampleInvoice [] 150 "bank_transfer" "" "t" =
      { invoice := sampleInvoice
        payments := []
        response := .overpay (sampleInvoice.amount - paid_sum [] "INV-S") 150
          (150 - (sampleInvoice.amount - paid_sum [] "INV-S")) } :=
  (process_payment_rejects_iff_overpay "INV-S" sampleInvoice [] 150 "bank_transfer" "" "t").2
    (by norm_num [sampleInvoice, paid_sum])

/-- Claim C4: after every successful `process_payment`, the stored
`paid_amount` plus the recomputed outstanding (invoice amount minus the
sum of all recorded payments) equals the invoice amount within 0.01,
and the stored status is `"paid"` exactly when the new outstanding is
at most 0.01 and `"partially_paid"` otherwise. -/
theorem process_payment_success_invariant (invoice_id : String) (inv : Invoice)
    (payments : List Payment) (payment_amount : ℚ) (method reference now : String)
    (h : payment_amount ≤ inv.amount - paid_sum payments invoice_id) :
    |(process_payment invoice_id inv payments payment_amount method reference now).invoice.paid_amount
        + ((process_payment invoice_id inv payments payment_amount method reference now).invoice.amount
            - paid_sum (process_payment invoice_id inv payments payment_amount method reference now).payments invoice_id)
        - (process_payment invoice_id inv payments payment_amount method reference now).invoice.amount|
      ≤ 1/100 ∧
    (process_payment invoice_id inv payments payment_amount method reference now).invoice.status =
      (if inv.amount - paid_sum payments invoice_id - payment_amount ≤ 1/100 then
        "paid" else "partially_paid") := by
  have hng : ¬ payment_amount > inv.amount - paid_sum payments invoice_id := not_lt.mpr h
  simp only [process_payment, if_neg hng]
  rw [paid_sum_append_matching payments _ invoice_id rfl]
  split_ifs with hc
  · refine ⟨?_, rfl⟩
    simp only []
    rw [abs_le]
    constructor <;> [linarith; linarith]
  · refine ⟨?_, rfl⟩
    simp only []
    rw [abs_le]
    constructor <;> [linarith; linarith]

/-- Witness for `process_payment_success_invariant`: a payment of 40
against `sampleInvoice` (outstanding 100) leaves it `"partially_paid"`
with `paid_amount` 40. -/
theorem process_payment_success_invariant_witness :
    |(process_payment "INV-S" sampleInvoice [] 40 "bank_transfer" "" "t").invoice.paid_amount
        + ((process_payment "INV-S" sampleInvoice [] 40 "bank_transfer" "" "t").invoice.amount
            - paid_sum (process_payment "INV-S" sampleInvoice [] 40 "bank_transfer" "" "t").payments "INV-S")
        - (process_payment "INV-S" sampleInvoice [] 40 "bank_transfer" "" "t").invoice.amount|
      ≤ 1/100 ∧
    (process_payment "INV-S" sampleInvoice [] 40 "bank_transfer" "" "t").invoice.status =
      (if sampleInvoice.amount - paid_sum [] "INV-S" - 40 ≤ 1/100 then
        "paid" else "partially_paid") :=
  process_payment_success_invariant "INV-S" sampleInvoice [] 40 "bank_transfer" "" "t"
    (by norm_num [sampleInvoice, paid_sum])

/-- Claim C5: whenever `validate_transaction` returns a result, its
`validation_status` is the last of the sequential overwrites whose
condition holds: `high_value` when the outstanding total exceeds 50000,
else `attention_required` when an overdue invoice is present, else
`warning` for a payment exceeding the outstanding total, else
`approved`. -/
theorem validate_transaction_status_last_overwrite (s : ErpState) (a : String)
    (amt : ℚ) (t : String) (r : ValidationResult)
    (h : (validate_transaction s a amt t).2 = Except.ok r) :
    r.validation_status = validation_status_spec s a amt t := by
  by_cases ha : a = ""
  · simp [validate_transaction, ha] at h
  · simp only [validate_transaction, if_neg ha] at h
    rw [Except.ok.injEq] at h
    subst h
    simp only [validation_status_spec]
    split_ifs <;> rfl

/-- Witness for `validate_transaction_status_last_overwrite` at the
concrete state `partState`. -/
theorem validate_transaction_status_last_overwrite_witness :
    ({ account_number := "ACC-P", transaction_amount := 50
       transaction_type := "payment", outstanding_invoices := 0
       invoice_count := 1, validation_status := "warning"
       notes := ["Payment amount exceeds outstanding invoices"] } : ValidationResult).validation_status
      = validation_status_spec partState "ACC-P" 50 "payment" :=
  validate_transaction_status_last_overwrite partState "ACC-P" 50 "payment" _
    (by simp [validate_transaction, partState, partInvoice])

/-- Claim C6, counterexample: on `partState` the figure
`validate_transaction` compares payments against is 0 (the
partially-paid invoice contributes nothing), while the glossary's
outstanding (amount minus prior payments) is 60; the two differ, and a
payment of 50 is flagged `warning` although it does not exceed the
glossary outstanding. -/
theorem validate_transaction_outstanding_counterexample :
    (validate_transaction partState "ACC-P" 50 "payment").2 =
      Except.ok { account_number := "ACC-P", transaction_amount := 50
                  transaction_type := "payment", outstanding_invoices := 0
                  invoice_count := 1, validation_status := "warning"
                  notes := ["Payment amount exceeds outstanding invoices"] } ∧
    glossary_outstanding partState "ACC-P" = 60 ∧ (0 : ℚ) ≠ 60 := by
  refine ⟨?_, ?_, by norm_num⟩
  · simp [validate_transaction, partState, partInvoice]
  · simp [glossary_outstanding, paid_sum, partState, partInvoice, partPayment]
    norm_num

/-- Claim C6 (amended): the outstanding figure used by
`validate_transaction` equals the sum of the full amounts of the
account's invoices whose stored status is `"pending"` or `"overdue"`,
ignoring recorded payments, so a partially-paid invoice contributes
nothing. -/
theorem validate_transaction_outstanding_eq_pending_overdue (s : ErpState) (a : String)
    (amt : ℚ) (t : String) (r : ValidationResult)
    (h : (validate_transaction s a amt t).2 = Except.ok r) :
    r.outstanding_invoices = pending_overdue_total s a := by
  by_cases ha : a = ""
  · simp [validate_transaction, ha] at h
  · simp only [validate_transaction, if_neg ha] at h
    rw [Except.ok.injEq] at h
    subst h
    simp only [pending_overdue_total]
    split_ifs <;> rfl

/-- Witness for `validate_transaction_outstanding_eq_pending_overdue`
at the concrete state `partState`. -/
theorem validate_transaction_outstanding_eq_pending_overdue_witness :
    ({ account_number := "ACC-P", transaction_amount := 50
       transaction_type := "payment", outstanding_invoices := 0
       invoice_count := 1, validation_status := "warning"
       notes := ["Payment amount exceeds outstanding invoices"] } : ValidationResult).outstanding_invoices
      = pending_overdue_total partState "ACC-P" :=
  validate_transaction_outstanding_eq_pending_overdue partState "ACC-P" 50 "payment" _
    (by simp [validate_transaction, partState, partInvoice])

/-- Claim C8: `validate_transaction` never writes the store, and
re-invoking it on the resulting state with identical inputs returns the
identical state-and-output pair. -/
theorem validate_transaction_idempotent (s : ErpState) (a : String) (amt : ℚ) (t : String) :
    (validate_transaction s a amt t).1 = s ∧
    validate_transaction (validate_transaction s a amt t).1 a amt t =
      validate_transaction s a amt t := by
  have h1 : (validate_transaction s a amt t).1 = s := by
    unfold validate_transaction
    split_ifs <;> rfl
  exact ⟨h1, by rw [h1]⟩

/-- Claim C1: for every transaction amount, customer-lookup result and
validation result, the action chosen by `make_decision` is exactly the
first-match-wins decision table in the claimed fixed order. -/
theorem make_decision_follows_table (amount : ℚ) (customer_step : Option Customer)
    (validation_step : Option ValidationResult) :
    (make_decision amount customer_step validation_step).action =
      decision_table_spec amount customer_step validation_step := by
  cases customer_step with
  | none => rfl
  | some c =>
    cases validation_step with
    | none =>
      simp only [make_decision, decision_table_spec]
      split_ifs <;> rfl
    | some v =>
      simp only [make_decision, decision_table_spec]
      split_ifs <;> rfl

/-- Claim C9: `evaluate_notification` checks its rules independently
and non-exclusively — each template is in the returned list exactly
when its own condition holds, and `should_notify` holds exactly when
some rule matched. -/
theorem evaluate_notification_rules (amount : ℚ) (customer : Option Customer)
    (validation_result : Option ValidationResult) :
    (({ template := "high_value_alert", priority := "high" } : NotificationItem) ∈
        (evaluate_notification amount customer validation_result).notifications ↔
      amount > 50000) ∧
    (({ template := "suspended_customer_payment", priority := "high" } : NotificationItem) ∈
        (evaluate_notification amount customer validation_result).notifications ↔
      ∃ c, customer = some c ∧ c.status = "suspended") ∧
    (({ template := "unknown_customer", priority := "urgent" } : NotificationItem) ∈
        (evaluate_notification amount customer validation_result).notifications ↔
      customer = none) ∧
    (({ template := "payment_mismatch", priority := "normal" } : NotificationItem) ∈
        (evaluate_notification amount customer validation_result).notifications ↔
      ∃ v, validation_result = some v ∧
        (v.validation_status = "warning" ∨ v.validation_status = "attention_required")) ∧
    (({ template := "overpayment_alert", priority := "normal" } : NotificationItem) ∈
        (evaluate_notification amount customer validation_result).notifications ↔
      ∃ v, validation_result = some v ∧ "overpayment" ∈ v.notes) ∧
    ((evaluate_notification amount customer validation_result).should_notify = true ↔
      (evaluate_notification amount customer validation_result).notifications ≠ []) := by
  cases customer with
  | none =>
    cases validation_result with
    | none =>
      simp only [evaluate_notification]
      split_ifs <;> simp_all [List.length_pos]
    | some v =>
      simp only [evaluate_notification]
      split_ifs <;> simp_all [List.length_pos]
  | some c =>
    cases validation_result with
    | none =>
      simp only [evaluate_notification]
      split_ifs <;> simp_all [List.length_pos]
    | some v =>
      simp only [evaluate_notification]
      split_ifs <;> simp_all [List.length_pos]

end MockBiz
